import Mathlib

/-!
# Connector Reconciliation Engine — verification of the spec's claims

Shallow embedding of `internal/connector/internal/workers` (the
`ConnectorManager` worker) of kas-fleet-manager: the transaction scope
`InDBTransaction`, the startup catalog reconciliation, the five phase
reconcilers and the reconcile driver.  Collaborator services
(connector store, cluster store, catalog store, database factory) are
not part of the embedded file; their results are passed in as explicit
environment values, so each embedded function is a pure function of the
connector row and of the collaborator outcomes, returning the error it
would return together with a trace of the mutating calls it performed.

The file is organised as definitions first (the embedding), then the
theorems settling the claims.
-/

namespace KasFleet

/-! ## Errors -/

/-- A structured service error (`pkg/errors.ServiceError`). The embedded
code only inspects two aspects of it: its identity (errors are returned
unchanged) and whether it is a 404 (`Is404()`), which we keep as a flag. -/
structure ServiceError where
  reason : String
  is404 : Bool
deriving Repr, DecidableEq

/-- `serviceError.GeneralError(format, args...)`: builds a general (non-404)
service error carrying the formatted reason. -/
def generalError (reason : String) : ServiceError :=
  { reason := reason, is404 := false }

/-- A Go `error` interface value as the worker file distinguishes them:
either a `*serviceError.ServiceError` (checked by type assertion in
`InDBTransaction`) or any other error (`errors.Errorf` / `errors.Wrapf`). -/
inductive GoErr where
  | service (e : ServiceError)
  | plain (msg : String)
deriving Repr, DecidableEq

/-- `errors.Wrapf(err, msg)` applied to a collaborator ServiceError:
wrapping always produces a non-ServiceError. -/
def wrapfS (msg : String) (e : ServiceError) : GoErr :=
  GoErr.plain (msg ++ ": " ++ e.reason)

/-! ## Transaction scope: `InDBTransaction` -/

/-- Trace of the abstract `pkg/db` calls `InDBTransaction` makes after a
successful `Begin`: whether `Resolve` ran (the deferred resolve step), and
the argument `MarkForRollback` was called with (`none` = not called;
`some a` = called once with error value `a`, where `a = none` is a Go
`nil` error). -/
structure TxTrace where
  resolveCalled : Bool
  markRollbackArg : Option (Option ServiceError)
deriving Repr, DecidableEq

/-- `InDBTransaction(ctx, f)` embedded as a function of the collaborator
outcomes: `beginErr` is the result of `db.Begin`, `resolveErr` the result
of the deferred `db.Resolve`, and `fResult` the error returned by `f`.
Returns the trace of db calls and the outer `*ServiceError`.

Control flow of the source: if `Begin` fails, return a general error at
once (no resolve). Otherwise the deferred resolve runs on every exit
path, and when it fails it overwrites the named return value `rerr`.
If `f` failed, the source calls `db.MarkForRollback(ctx, rerr)` — note
that at this point the named return `rerr` has not been assigned yet, so
the argument is the Go zero value `nil` — and then returns `f`'s error:
as-is when it is a `*ServiceError`, wrapped by `GeneralError` otherwise. -/
def InDBTransaction (beginErr : Option String) (resolveErr : Option String)
    (fResult : Option GoErr) : TxTrace × Option ServiceError :=
  match beginErr with
  | some m => (⟨false, none⟩, some (generalError ("failed to create tx: " ++ m)))
  | none =>
    let markArg : Option (Option ServiceError) :=
      match fResult with
      | some _ => some none
      | none => none
    let bodyReturn : Option ServiceError :=
      match fResult with
      | some (GoErr.service e) => some e
      | some (GoErr.plain m) => some (generalError m)
      | none => none
    let outer : Option ServiceError :=
      match resolveErr with
      | some m => some (generalError ("failed to resolve tx: " ++ m))
      | none => bodyReturn
    (⟨true, markArg⟩, outer)

/-- The outer error `InDBTransaction` produces from the inner error when
begin and resolve both succeed: a `*ServiceError` is preserved as-is,
anything else is wrapped as a general error. -/
def preservedInner : Option GoErr → Option ServiceError
  | none => none
  | some (GoErr.service e) => some e
  | some (GoErr.plain m) => some (generalError m)

/-! ## Catalog reconciliation: `GetShardMetadataRevision` -/

/-- A Go `interface{}` value as it can appear in the decoded
`shard_metadata` map. JSON decoding yields `float64` for every number;
we model a `float64` by the rational it denotes. Other dynamic types
reach the function unmodified. -/
inductive GoValue where
  | vfloat (q : ℚ)
  | vstring (s : String)
  | vbool (b : Bool)
  | vint (n : ℤ)
deriving Repr, DecidableEq

/-- `reflect.TypeOf(v).Kind()` for the modelled dynamic types. -/
def goKind : GoValue → String
  | .vfloat _ => "float64"
  | .vstring _ => "string"
  | .vbool _ => "bool"
  | .vint _ => "int"

/-- Go's `int64(f)` conversion on a `float64`: truncation toward zero. -/
def ratTruncToZero (q : ℚ) : ℤ :=
  q.num.tdiv q.den

/-- `GetShardMetadataRevision(connectorShardMetadata)`: looks up
`connector_revision`; if present and the dynamic type is `float64`,
returns `int64(floatRevision)`; if present with any other dynamic type,
or absent, returns an error. -/
def GetShardMetadataRevision (connectorShardMetadata : List (String × GoValue)) :
    Except String ℤ :=
  match connectorShardMetadata.lookup "connector_revision" with
  | some revision =>
    match revision with
    | GoValue.vfloat q => Except.ok (ratTruncToZero q)
    | v => Except.error
        ("connector_revision in shard metadata was not an int but a " ++ goKind v)
  | none => Except.error "connector_revision not found in shard metadata"

/-- The spec's notion of a numerically integral value ("must be present
and integral"), stated from the spec's words for comparison with the
source's actual float64 type test. -/
def specIntegral : GoValue → Bool
  | .vfloat q => q.den == 1
  | .vint _ => true
  | _ => false

/-- The float64 value 2.5, as the rational 5/2 in lowest terms. -/
def twoPointFive : ℚ := ⟨5, 2, by decide, by decide⟩

/-! ## Connector data model and per-row phase reconcilers

Each per-row reconciler is embedded as a pure function of the connector
row and of an environment holding the collaborator call results it
consumes; its output is the Go error it returns plus the trace of
mutating collaborator calls it issued, in order. -/

/-- The fields of `dbapi.Connector` (with its embedded
`dbapi.ConnectorStatus`) the worker reads. -/
structure GoConnector where
  id : String
  owner : String
  organisationId : String
  namespaceId : Option String
  connectorTypeId : String
  channel : String
  version : ℤ
  statusPhase : String
  statusNamespaceId : Option String
deriving Repr, DecidableEq

/-- The fields of `dbapi.ConnectorNamespace` the worker reads. -/
structure GoNamespace where
  id : String
  clusterId : String
deriving Repr, DecidableEq

/-- One `SaveStatus` call: the `dbapi.ConnectorStatus` value written. -/
structure StatusSave where
  id : String
  namespaceId : Option String
  phase : String
deriving Repr, DecidableEq

/-- One `SaveDeployment` call creating a deployment: the
`dbapi.ConnectorDeployment` fields the worker fills in. -/
structure GoDeployment where
  connectorId : String
  clusterId : String
  namespaceId : String
  connectorVersion : ℤ
  connectorShardMetadataId : String
deriving Repr, DecidableEq

/-- Collaborator results consumed by one `reconcileAssigning` row. -/
structure AssigningEnv where
  findNamespace : Except ServiceError (Option GoNamespace)
  latestShardMetadata : Except ServiceError String
  saveStatusErr : Option ServiceError
  saveDeploymentErr : Option ServiceError

/-- Error and mutation trace of one `reconcileAssigning` row. -/
structure AssigningResult where
  err : Option GoErr
  statusSaves : List StatusSave
  deploymentSaves : List GoDeployment
deriving Repr, DecidableEq

/-- `reconcileAssigning(ctx, connector)`: find an available namespace
(`nil` namespace means success with no further action), fetch the latest
shard metadata, save the status with phase `assigned` and the chosen
namespace, then create the deployment. -/
def reconcileAssigning (env : AssigningEnv) (c : GoConnector) : AssigningResult :=
  match env.findNamespace with
  | Except.error e =>
      ⟨some (wrapfS ("failed to find namespace for connector request " ++ c.id) e),
        [], []⟩
  | Except.ok none => ⟨none, [], []⟩
  | Except.ok (some ns) =>
    match env.latestShardMetadata with
    | Except.error e =>
        ⟨some (wrapfS
            ("failed to get latest channel version for connector request " ++ c.id) e),
          [], []⟩
    | Except.ok smId =>
      let status : StatusSave := ⟨c.id, some ns.id, "assigned"⟩
      match env.saveStatusErr with
      | some e =>
          ⟨some (wrapfS
              ("failed to update connector status " ++ c.id ++ " with namespace details") e),
            [status], []⟩
      | none =>
        let dep : GoDeployment := ⟨c.id, ns.clusterId, ns.id, c.version, smId⟩
        match env.saveDeploymentErr with
        | some e =>
            ⟨some (wrapfS
                ("failed to create connector deployment for connector " ++ c.id) e),
              [status], [dep]⟩
        | none => ⟨none, [status], [dep]⟩

/-- Collaborator results consumed by one `reconcileDeleting` row:
the deployment lookup outcome and the two write outcomes. -/
structure DeletingEnv where
  getDeployment : Except ServiceError Unit
  updateNamespaceErr : Option ServiceError
  saveStatusErr : Option ServiceError

/-- Error and mutation trace of one `reconcileDeleting` row:
`namespaceUpdates` holds each raw `Update("namespace_id", …)` performed,
as (connector id, new value). -/
structure DeletingResult where
  err : Option GoErr
  namespaceUpdates : List (String × Option String)
  statusSaves : List StatusSave
deriving Repr, DecidableEq

/-- `reconcileDeleting(ctx, connector)`: look up the deployment by
connector id; on a 404 clear `namespace_id` on the connector row and save
the status with phase `deleted`; if found, do nothing; any other lookup
error is returned as-is. -/
def reconcileDeleting (env : DeletingEnv) (c : GoConnector) : DeletingResult :=
  match env.getDeployment with
  | Except.ok _ => ⟨none, [], []⟩
  | Except.error e =>
    if e.is404 then
      match env.updateNamespaceErr with
      | some ue =>
          ⟨some (wrapfS ("failed to update namespace_id for connector " ++ c.id) ue),
            [], []⟩
      | none =>
        let status : StatusSave := ⟨c.id, c.statusNamespaceId, "deleted"⟩
        match env.saveStatusErr with
        | some se => ⟨some (GoErr.service se), [(c.id, none)], [status]⟩
        | none => ⟨none, [(c.id, none)], [status]⟩
    else ⟨some (GoErr.service e), [], []⟩

/-- Collaborator results consumed by one `reconcileConnectorUpdate` row:
the deployment fetch (carrying the deployment's `ConnectorVersion` when
found), the save outcome, and the `AddPostCommitAction` outcome. -/
structure UpdateEnv where
  getDeployment : Except ServiceError ℤ
  saveDeploymentErr : Option ServiceError
  addPostCommitErr : Option ServiceError

/-- Error and mutation trace of one `reconcileConnectorUpdate` row:
`deploymentSaves` holds the `ConnectorVersion` written by each
`SaveDeployment` call; `postCommitRegistered` records whether the
post-commit action assigning `lastVersion` was successfully queued. -/
structure UpdateResult where
  err : Option GoErr
  deploymentSaves : List ℤ
  postCommitRegistered : Bool
deriving Repr, DecidableEq

/-- `reconcileConnectorUpdate(ctx, connector)`: fetch the deployment; if
found and its version differs from the connector's, write the
connector's version into it with one save; then — on every path —
call `AddPostCommitAction` to queue `lastVersion = connector.Version`,
combining a registration failure with any earlier error. -/
def reconcileConnectorUpdate (env : UpdateEnv) (c : GoConnector) : UpdateResult :=
  let step1 : Option GoErr × List ℤ :=
    match env.getDeployment with
    | Except.error serr => (some (GoErr.service serr), [])
    | Except.ok depVersion =>
      if depVersion ≠ c.version then
        match env.saveDeploymentErr with
        | some serr =>
            (some (wrapfS
                ("failed to update connector version in deployment for connector " ++ c.id)
                serr),
              [c.version])
        | none => (none, [c.version])
      else (none, [])
  match env.addPostCommitErr with
  | none => ⟨step1.1, step1.2, true⟩
  | some cerr =>
    match step1.1 with
    | none => ⟨some (GoErr.service cerr), step1.2, false⟩
    | some _ =>
        ⟨some (GoErr.plain ("Multiple errors in reconciling connector " ++ c.id)),
          step1.2, false⟩

/-! ## The reconcile driver: `Reconcile` -/

/-- The five phase reconciler names, in source order. -/
inductive PhaseName where
  | assigning
  | unassigned
  | deleting
  | deleted
  | updated
deriving Repr, DecidableEq

/-- The order in which `Reconcile` invokes `doReconcile` for the five
phases. -/
def phaseOrder : List PhaseName :=
  [PhaseName.assigning, PhaseName.unassigned, PhaseName.deleting,
   PhaseName.deleted, PhaseName.updated]

/-- Outcomes of the three startup catalog steps a tick may run:
`DeleteUnusedAndNotInCatalog`, the `ForEachConnectorCatalogEntry` pass
over `ReconcileConnectorCatalogEntry`, and `CleanupDeployments`. -/
structure StartupEnv where
  deleteUnusedErr : Option GoErr
  catalogEntryErr : Option GoErr
  cleanupErr : Option GoErr

/-- The manager state a tick reads and writes: the startup-done flag and
whether the singleton DB context has been created (`k.ctx != nil`). -/
structure DriverState where
  startupReconcileDone : Bool
  hasCtx : Bool
deriving Repr, DecidableEq

/-- Result of one `Reconcile()` tick: the returned error slice, the
manager state after the tick, and which phase scans ran, in order. -/
structure TickOutcome where
  errs : List GoErr
  state : DriverState
  phasesRun : List PhaseName
deriving Repr, DecidableEq

/-- The five `doReconcile` calls at the end of `Reconcile`: each phase
scan runs unconditionally, appending its service-level errors to the
single error bag. `phaseErrs p` is the error slice the scan of phase `p`
appends. -/
def runPhases (phaseErrs : PhaseName → List GoErr) (s : DriverState) : TickOutcome :=
  ⟨phaseOrder.foldl (fun acc p => acc ++ phaseErrs p) [], s, phaseOrder⟩

/-- The part of `Reconcile` after the startup block: create the singleton
DB context if absent (returning `[err]` when that fails), then run the
five phase scans. -/
def reconcileAfterStartup (newContextErr : Option GoErr)
    (phaseErrs : PhaseName → List GoErr) (s : DriverState) : TickOutcome :=
  if s.hasCtx then runPhases phaseErrs s
  else
    match newContextErr with
    | some e => ⟨[e], s, []⟩
    | none => runPhases phaseErrs { s with hasCtx := true }

/-- `Reconcile()`: when the startup reconcile is not yet done, run the
three catalog steps in order, returning `[err]` at the first failure
without touching the startup-done flag; on success set the flag and fall
through to the context check and the five phase scans. -/
def Reconcile (env : StartupEnv) (newContextErr : Option GoErr)
    (phaseErrs : PhaseName → List GoErr) (s : DriverState) : TickOutcome :=
  if s.startupReconcileDone then reconcileAfterStartup newContextErr phaseErrs s
  else
    match env.deleteUnusedErr with
    | some e => ⟨[e], s, []⟩
    | none =>
      match env.catalogEntryErr with
      | some e => ⟨[e], s, []⟩
      | none =>
        match env.cleanupErr with
        | some e => ⟨[e], s, []⟩
        | none =>
            reconcileAfterStartup newContextErr phaseErrs
              { s with startupReconcileDone := true }

/-! ## The `updated` phase scan and the high-water mark `lastVersion` -/

/-- One row of the `updated` phase scan together with the collaborator
outcomes of its per-row transaction. -/
structure UpdateRow where
  connector : GoConnector
  env : UpdateEnv
  beginErr : Option String
  resolveErr : Option String

/-- The phases excluded by the `updated` scan's
`phase NOT IN ?` argument. -/
def updateExcludedPhases : List String := ["assigning", "deleting", "deleted"]

/-- The `updated` scan's row predicate `version > ? AND phase NOT IN ?`,
with `?` bound to the `k.lastVersion` captured when the tick reaches the
`updated` phase. -/
def selectedForUpdate (lastVersion : ℤ) (c : GoConnector) : Bool :=
  decide (lastVersion < c.version) && !(updateExcludedPhases.contains c.statusPhase)

/-- Whether a row's transaction commits: begin succeeded, the per-row
function returned nil (so no rollback mark was made), and the resolve
step succeeded. -/
def rowCommitted (r : UpdateRow) : Bool :=
  r.beginErr.isNone && (reconcileConnectorUpdate r.env r.connector).err.isNone
    && r.resolveErr.isNone

/-- Effect of one row's transaction on `lastVersion`: the queued
post-commit action runs exactly when the transaction commits, and it
executes the assignment `k.lastVersion = connector.Version`. -/
def applyUpdateRow (lastVersion : ℤ) (r : UpdateRow) : ℤ :=
  if rowCommitted r
      && (reconcileConnectorUpdate r.env r.connector).postCommitRegistered
  then r.connector.version
  else lastVersion

/-- The successive values of `lastVersion` over one `updated` phase scan:
the tick-start value followed by the value after each selected row's
transaction (a post-commit callback for a row runs before the next row's
transaction begins). -/
def hwmTrace (hwm0 : ℤ) (rows : List UpdateRow) : List ℤ :=
  (rows.filter (fun r => selectedForUpdate hwm0 r.connector)).scanl
    applyUpdateRow hwm0

/-- The value of `lastVersion` after one `updated` phase scan. -/
def hwmFinal (hwm0 : ℤ) (rows : List UpdateRow) : ℤ :=
  (rows.filter (fun r => selectedForUpdate hwm0 r.connector)).foldl
    applyUpdateRow hwm0

/-- A scan row whose transaction commits: the deployment is fetched at
version 0 and every collaborator call succeeds. -/
def committedRow (id : String) (v : ℤ) : UpdateRow :=
  ⟨⟨id, "own", "org", some "ns-1", "t", "stable", v, "assigned", some "ns-1"⟩,
   ⟨Except.ok 0, none, none⟩, none, none⟩

/-! ## Phase scans: `doReconcile` over `ForEach` -/

/-- One row of a phase scan together with the outcomes its per-row
transaction depends on: the begin/resolve results and what the phase's
per-row reconcile function returns for it. -/
structure ScanRow where
  connector : GoConnector
  beginErr : Option String
  resolveErr : Option String
  fnResult : Option GoErr

/-- The function `doReconcile` hands to `ForEach`: the per-row reconcile
function (whose error is logged and propagated) wrapped in
`InDBTransaction` on the manager's singleton context. -/
def perRowTx (r : ScanRow) : Option ServiceError :=
  (InDBTransaction r.beginErr r.resolveErr r.fnResult).2

/-- Modelled from the spec: `ConnectorsService.ForEach` (its
implementation is not under `src/`). Per §6 it invokes the per-row
function once per row matching the query; per §4.4/§7 an error returned
for one row is logged and counted but does not abort the scan and is not
part of the returned slice, which holds only service-level scan errors
(here: the row query failing, `scanErr`). The second component is the
trace of rows attempted, each with its per-row result. -/
def ForEach (scanErr : Option GoErr) (rows : List ScanRow)
    (f : ScanRow → Option ServiceError) :
    List GoErr × List (ScanRow × Option ServiceError) :=
  match scanErr with
  | some e => ([e], [])
  | none => ([], rows.map fun r => (r, f r))

/-- `doReconcile(errs, phase, reconcileFunc, query, args…)`: run the
scan, wrapping each row in `InDBTransaction`, and append the returned
service-level errors (when any) to the tick's error bag. -/
def doReconcile (errs : List GoErr) (scanErr : Option GoErr)
    (rows : List ScanRow) : List GoErr × List (ScanRow × Option ServiceError) :=
  let scan := ForEach scanErr rows perRowTx
  (if scan.1.length > 0 then errs ++ scan.1 else errs, scan.2)

end KasFleet

/-! ## Theorems settling the claims -/

namespace KasFleet

/-- C1, as stated, is false in one conjunct: when `f` returns an error the
source calls `db.MarkForRollback(ctx, rerr)` where `rerr` is the named
return value, still unassigned (Go `nil`) at that point — it does NOT pass
the inner error. Concretely with `f` returning the plain error `"boom"`,
the transaction is marked for rollback with the `nil` error, while the
inner error (which the same call returns, wrapped as a general error) is
a non-nil value. -/
theorem inDBTransaction_rollback_arg_is_nil_counterexample :
    (InDBTransaction none none (some (GoErr.plain "boom"))).1.markRollbackArg
        = some none
      ∧ (InDBTransaction none none (some (GoErr.plain "boom"))).2
        = some (generalError "boom")
      ∧ some (none : Option ServiceError) ≠ some (some (generalError "boom")) := by
  refine ⟨rfl, rfl, ?_⟩
  simp

/-- C1 (amended): `InDBTransaction` begins a transaction and invokes `f`;
if `Begin` fails the outer result is the begin-failure general error and
the resolve step does not run. Otherwise the resolve step runs on every
exit path; if `f` returned an error the transaction is marked for
rollback (with the still-nil outer error value, not the inner error) and,
when resolve succeeds, the inner error is returned preserved — a
ServiceError as-is, anything else wrapped as a general error; if `f`
succeeded no rollback mark is made and the outer result is nil (commit);
and a resolve failure yields the resolve-failure general error as the
outer result. -/
theorem inDBTransaction_spec (b r : Option String) (f : Option GoErr) :
    (∀ m, b = some m →
      InDBTransaction b r f
        = (⟨false, none⟩, some (generalError ("failed to create tx: " ++ m))))
    ∧ (b = none →
        (InDBTransaction b r f).1.resolveCalled = true
        ∧ ((InDBTransaction b r f).1.markRollbackArg
            = if f.isSome then some none else none)
        ∧ (r = none → (InDBTransaction b r f).2 = preservedInner f)
        ∧ (∀ m, r = some m →
            (InDBTransaction b r f).2
              = some (generalError ("failed to resolve tx: " ++ m)))) := by
  refine ⟨fun m hb => ?_, fun hb => ?_⟩
  · subst hb; rfl
  · subst hb
    refine ⟨rfl, ?_, fun hr => ?_, fun m hr => ?_⟩
    · cases f <;> rfl
    · subst hr; cases f with
      | none => rfl
      | some e => cases e <;> rfl
    · subst hr; cases f with
      | none => rfl
      | some e => cases e <;> rfl

/-- Witness for C1's amended theorem at a concrete input: begin succeeds,
resolve succeeds, `f` returns a plain error; the trace shows resolve ran,
the rollback mark carries the nil error, and the outer result is the
wrapped inner error. -/
theorem inDBTransaction_spec_witness :
    (InDBTransaction none none (some (GoErr.plain "x"))).1.resolveCalled = true
    ∧ (InDBTransaction none none (some (GoErr.plain "x"))).2
        = preservedInner (some (GoErr.plain "x")) := by
  have h := inDBTransaction_spec none none (some (GoErr.plain "x"))
  exact ⟨(h.2 rfl).1, ((h.2 rfl).2.2.1 rfl)⟩

/-- C4, as stated, is false: the source tests only that the value's
dynamic type is `float64`, not that it is numerically integral. With
`shard_metadata = {connector_revision: 2.5}` the value is not integral,
yet the source returns `int64(2.5) = 2` with no error, where the claim
requires an error. -/
theorem getShardMetadataRevision_nonintegral_counterexample :
    GetShardMetadataRevision [("connector_revision", GoValue.vfloat twoPointFive)]
        = Except.ok 2
      ∧ specIntegral (GoValue.vfloat twoPointFive) = false := by
  constructor
  · rfl
  · rfl

/-- C4 (amended): `GetShardMetadataRevision` returns an error iff the
`shard_metadata` map lacks the `connector_revision` key or its value's
dynamic type is not `float64`; when the value is a `float64` it returns
that value truncated toward zero as an int64 — a non-integral number is
truncated, not rejected. -/
theorem getShardMetadataRevision_spec (m : List (String × GoValue)) :
    ((∃ s, GetShardMetadataRevision m = Except.error s)
        ↔ (m.lookup "connector_revision" = none
            ∨ ∃ v, m.lookup "connector_revision" = some v
                ∧ ∀ q, v ≠ GoValue.vfloat q))
    ∧ ∀ q, m.lookup "connector_revision" = some (GoValue.vfloat q) →
        GetShardMetadataRevision m = Except.ok (ratTruncToZero q) := by
  constructor
  · constructor
    · intro ⟨s, hs⟩
      unfold GetShardMetadataRevision at hs
      cases hl : m.lookup "connector_revision" with
      | none => exact Or.inl rfl
      | some v =>
        rw [hl] at hs
        refine Or.inr ⟨v, rfl, fun q hq => ?_⟩
        subst hq
        simp at hs
    · intro h
      unfold GetShardMetadataRevision
      cases hl : m.lookup "connector_revision" with
      | none => exact ⟨_, rfl⟩
      | some v =>
        rcases h with h | ⟨w, hw, hnf⟩
        · rw [hl] at h; cases h
        · rw [hl] at hw
          injection hw with hw
          subst hw
          cases v with
          | vfloat q => exact absurd rfl (hnf q)
          | vstring s => exact ⟨_, rfl⟩
          | vbool b => exact ⟨_, rfl⟩
          | vint n => exact ⟨_, rfl⟩
  · intro q hq
    unfold GetShardMetadataRevision
    rw [hq]

/-- Witness for C4's amended theorem: a map holding the float64 value 7
yields `ok (trunc 7) = ok 7`. -/
theorem getShardMetadataRevision_spec_witness :
    GetShardMetadataRevision [("connector_revision", GoValue.vfloat 7)]
      = Except.ok (ratTruncToZero 7) :=
  (getShardMetadataRevision_spec
    [("connector_revision", GoValue.vfloat 7)]).2 7 rfl

/-- C7: when `FindAvailableNamespace` reports that no namespace is
available (nil namespace, nil error), `reconcileAssigning` returns
success and performs no mutation: no status save and no deployment
creation, leaving the row in phase `assigning` for the next tick. -/
theorem reconcileAssigning_no_namespace_frame
    (env : AssigningEnv) (c : GoConnector)
    (h : env.findNamespace = Except.ok none) :
    reconcileAssigning env c = ⟨none, [], []⟩ := by
  unfold reconcileAssigning
  rw [h]

/-- Witness for C7 at a concrete environment and row. -/
theorem reconcileAssigning_no_namespace_frame_witness :
    reconcileAssigning
        ⟨Except.ok none, Except.ok "sm-1", none, none⟩
        ⟨"c1", "own", "org", some "ns-1", "t", "stable", 1, "assigning", none⟩
      = ⟨none, [], []⟩ :=
  reconcileAssigning_no_namespace_frame
    ⟨Except.ok none, Except.ok "sm-1", none, none⟩
    ⟨"c1", "own", "org", some "ns-1", "t", "stable", 1, "assigning", none⟩ rfl

/-- C6: per `reconcileDeleting` row — on a 404 from the deployment
lookup (and the two writes succeeding) the connector's `namespace_id`
is cleared and its status is saved with phase `deleted`; when a
deployment is found, success is returned with no mutation; any other
lookup error is returned unchanged. -/
theorem reconcileDeleting_spec (env : DeletingEnv) (c : GoConnector)
    (e : ServiceError) :
    (env.getDeployment = Except.error e → e.is404 = true →
      env.updateNamespaceErr = none → env.saveStatusErr = none →
      reconcileDeleting env c
        = ⟨none, [(c.id, none)], [⟨c.id, c.statusNamespaceId, "deleted"⟩]⟩)
    ∧ (env.getDeployment = Except.ok () →
        reconcileDeleting env c = ⟨none, [], []⟩)
    ∧ (env.getDeployment = Except.error e → e.is404 = false →
        reconcileDeleting env c = ⟨some (GoErr.service e), [], []⟩) := by
  refine ⟨fun hg h4 hu hs => ?_, fun hg => ?_, fun hg h4 => ?_⟩
  · unfold reconcileDeleting
    rw [hg, hu, hs]
    simp [h4]
  · unfold reconcileDeleting
    rw [hg]
  · unfold reconcileDeleting
    rw [hg]
    simp [h4]

/-- Witness for C6 at a concrete environment: lookup yields a 404 and
both writes succeed; the row is moved to `deleted` with its namespace
cleared. -/
theorem reconcileDeleting_spec_witness :
    reconcileDeleting ⟨Except.error ⟨"not found", true⟩, none, none⟩
        ⟨"c2", "own", "org", some "ns-1", "t", "stable", 1, "deleting", some "ns-1"⟩
      = ⟨none, [("c2", none)], [⟨"c2", some "ns-1", "deleted"⟩]⟩ :=
  (reconcileDeleting_spec
      ⟨Except.error ⟨"not found", true⟩, none, none⟩
      ⟨"c2", "own", "org", some "ns-1", "t", "stable", 1, "deleting", some "ns-1"⟩
      ⟨"not found", true⟩).1 rfl rfl rfl rfl

/-- C5: per `reconcileConnectorUpdate` row whose deployment fetch
succeeds — when the fetched deployment's version differs from the
connector's, exactly one save is issued and it writes the connector's
current version (no intermediate values); when the versions are already
equal no save is issued, so a repeated pass with no external mutation
writes nothing. -/
theorem reconcileConnectorUpdate_save_spec (env : UpdateEnv) (c : GoConnector)
    (d : ℤ) (h : env.getDeployment = Except.ok d) :
    (d ≠ c.version →
      (reconcileConnectorUpdate env c).deploymentSaves = [c.version])
    ∧ (d = c.version →
        (reconcileConnectorUpdate env c).deploymentSaves = []) := by
  constructor
  · intro hne
    unfold reconcileConnectorUpdate
    rw [h]
    simp only [hne, if_pos, ne_eq, not_false_eq_true, if_true]
    cases env.saveDeploymentErr <;> cases env.addPostCommitErr <;> rfl
  · intro heq
    unfold reconcileConnectorUpdate
    rw [h]
    simp only [heq, ne_eq, not_true_eq_false, if_false]
    cases env.addPostCommitErr <;> rfl

/-- Witness for C5: a deployment at version 3 under a connector at
version 8 receives exactly one save writing 8. -/
theorem reconcileConnectorUpdate_save_spec_witness :
    (reconcileConnectorUpdate ⟨Except.ok 3, none, none⟩
        ⟨"c3", "own", "org", some "ns-1", "t", "stable", 8, "assigned", some "ns-1"⟩
      ).deploymentSaves = [(8 : ℤ)] :=
  (reconcileConnectorUpdate_save_spec ⟨Except.ok 3, none, none⟩
      ⟨"c3", "own", "org", some "ns-1", "t", "stable", 8, "assigned", some "ns-1"⟩
      3 rfl).1 (by decide)

/-- C3: on a tick where the startup reconcile has not yet completed, an
error from `DeleteUnusedAndNotInCatalog`, from the per-entry catalog
pass, or from `CleanupDeployments` makes `Reconcile` return exactly that
single error; no phase scan runs, and the state — in particular the
startup-done flag — is unchanged, so the next tick retries the catalog
steps from the top. -/
theorem reconcile_startup_error_aborts_tick (env : StartupEnv)
    (nce : Option GoErr) (pe : PhaseName → List GoErr) (s : DriverState)
    (e : GoErr) (hnd : s.startupReconcileDone = false) :
    (env.deleteUnusedErr = some e →
      Reconcile env nce pe s = ⟨[e], s, []⟩)
    ∧ (env.deleteUnusedErr = none → env.catalogEntryErr = some e →
        Reconcile env nce pe s = ⟨[e], s, []⟩)
    ∧ (env.deleteUnusedErr = none → env.catalogEntryErr = none →
        env.cleanupErr = some e →
        Reconcile env nce pe s = ⟨[e], s, []⟩) := by
  refine ⟨fun h1 => ?_, fun h1 h2 => ?_, fun h1 h2 h3 => ?_⟩
  · unfold Reconcile
    rw [hnd, h1]
    rfl
  · unfold Reconcile
    rw [hnd, h1, h2]
    rfl
  · unfold Reconcile
    rw [hnd, h1, h2, h3]
    rfl

/-- Witness for C3: with the startup flag unset and the catalog-entry
pass failing, the tick returns exactly that error, runs no phase, and
leaves the flag unset. -/
theorem reconcile_startup_error_aborts_tick_witness :
    Reconcile ⟨none, some (GoErr.plain "bad catalog"), none⟩ none (fun _ => [])
        ⟨false, false⟩
      = ⟨[GoErr.plain "bad catalog"], ⟨false, false⟩, []⟩ :=
  (reconcile_startup_error_aborts_tick
      ⟨none, some (GoErr.plain "bad catalog"), none⟩ none (fun _ => [])
      ⟨false, false⟩ (GoErr.plain "bad catalog") rfl).2.1 rfl rfl

/-- C8, as stated ("every Reconcile tick after startup runs the five
phase reconcilers"), is false on one path: a tick with the startup flag
already set but no DB context yet, on which `NewContext` fails, returns
just that error and runs no phase scan. -/
theorem reconcile_ctx_failure_counterexample :
    Reconcile ⟨none, none, none⟩ (some (GoErr.plain "ctx fail")) (fun _ => [])
        ⟨true, false⟩
      = ⟨[GoErr.plain "ctx fail"], ⟨true, false⟩, []⟩
    ∧ ([] : List PhaseName) ≠ phaseOrder := by
  exact ⟨rfl, by decide⟩

/-- C8 (amended): every tick with the startup reconcile done, on which
the singleton DB context already exists or is successfully created, runs
the five phase scans in the exact order assigning, unassigned, deleting,
deleted, updated; each phase runs whatever errors earlier phases
produced, and the tick returns the concatenation of all phases' error
slices as its single error bag. -/
theorem reconcile_phase_order_spec (env : StartupEnv) (nce : Option GoErr)
    (pe : PhaseName → List GoErr) (s : DriverState)
    (hd : s.startupReconcileDone = true)
    (hctx : s.hasCtx = true ∨ nce = none) :
    (Reconcile env nce pe s).phasesRun = phaseOrder
    ∧ (Reconcile env nce pe s).errs
        = pe PhaseName.assigning ++ pe PhaseName.unassigned
            ++ pe PhaseName.deleting ++ pe PhaseName.deleted
            ++ pe PhaseName.updated := by
  unfold Reconcile
  rw [hd]
  simp only [if_true]
  unfold reconcileAfterStartup
  rcases hctx with h | h
  · rw [h]
    simp [runPhases, phaseOrder, List.append_assoc]
  · rw [h]
    cases hc : s.hasCtx <;>
      simp [runPhases, phaseOrder, List.append_assoc]

/-- Witness for C8's amended theorem: a concrete post-startup tick where
phases `assigning` and `updated` fail; both slices appear in the bag, in
phase order, and all five phases ran. -/
theorem reconcile_phase_order_spec_witness :
    (Reconcile ⟨none, none, none⟩ none
        (fun p => if p = PhaseName.assigning then [GoErr.plain "a"]
          else if p = PhaseName.updated then [GoErr.plain "u"] else [])
        ⟨true, true⟩).phasesRun = phaseOrder
    ∧ (Reconcile ⟨none, none, none⟩ none
        (fun p => if p = PhaseName.assigning then [GoErr.plain "a"]
          else if p = PhaseName.updated then [GoErr.plain "u"] else [])
        ⟨true, true⟩).errs
        = [GoErr.plain "a"] ++ [] ++ [] ++ [] ++ [GoErr.plain "u"] := by
  have h := reconcile_phase_order_spec ⟨none, none, none⟩ none
    (fun p => if p = PhaseName.assigning then [GoErr.plain "a"]
      else if p = PhaseName.updated then [GoErr.plain "u"] else [])
    ⟨true, true⟩ rfl (Or.inl rfl)
  simpa using h

/-- C2, as stated, is false: the post-commit action executes
`lastVersion = connector.Version` — a plain assignment, not
`max(HWM, version)` — so when the scan iterates rows in decreasing
version order the value decreases between commits. Concretely, from
`lastVersion = 0` with committed rows at versions 5 then 3 the trace of
values is `[0, 5, 3]`, which is not non-decreasing. -/
theorem hwm_not_monotone_counterexample :
    hwmTrace 0 [committedRow "c5" 5, committedRow "c3" 3] = [0, 5, 3]
    ∧ ¬ List.Chain' (· ≤ ·)
        (hwmTrace 0 [committedRow "c5" 5, committedRow "c3" 3]) := by
  constructor
  · rfl
  · have ht : hwmTrace 0 [committedRow "c5" 5, committedRow "c3" 3]
        = [(0 : ℤ), 5, 3] := rfl
    rw [ht]
    intro h
    have h53 : (5 : ℤ) ≤ 3 := (List.chain'_cons.mp (List.chain'_cons.mp h).2).1
    omega

/-- Every row selected by the `updated` scan has version strictly above
the `lastVersion` captured at scan start. -/
theorem selectedForUpdate_lt {hwm0 : ℤ} {c : GoConnector}
    (h : selectedForUpdate hwm0 c = true) : hwm0 < c.version := by
  unfold selectedForUpdate at h
  have := (Bool.and_eq_true _ _).mp h
  exact of_decide_eq_true this.1

/-- Lower bound for `scanl` over rows all selected at `hwm0`. -/
theorem scanl_applyUpdateRow_lower_bound (hwm0 : ℤ) :
    ∀ l : List UpdateRow,
      (∀ r ∈ l, selectedForUpdate hwm0 r.connector = true) →
      ∀ s : ℤ, hwm0 ≤ s →
        ∀ x ∈ l.scanl applyUpdateRow s, hwm0 ≤ x := by
  intro l
  induction l with
  | nil =>
    intro _ s hs x hx
    rw [List.scanl_nil] at hx
    rcases List.mem_singleton.mp hx with rfl
    exact hs
  | cons a t ih =>
    intro hsel s hs x hx
    rw [List.scanl_cons] at hx
    rcases List.mem_cons.mp hx with rfl | hx
    · exact hs
    · refine ih (fun r hr => hsel r (List.mem_cons_of_mem a hr))
        (applyUpdateRow s a) ?_ x hx
      unfold applyUpdateRow
      by_cases hc : (rowCommitted a
          && (reconcileConnectorUpdate a.env a.connector).postCommitRegistered) = true
      · rw [if_pos hc]
        exact le_of_lt (selectedForUpdate_lt (hsel a (List.mem_cons_self a t)))
      · rw [if_neg hc]
        exact hs

/-- C2 (amended): each post-commit advance performed by PR-update sets
`lastVersion := connector.version` by plain assignment; because every
selected row's version is strictly above the `lastVersion` captured at
scan start, every value `lastVersion` takes during the scan — and hence
its value at the end of the tick — is at least the tick-start value, so
tick-start values are non-decreasing across ticks. Within a tick,
however, the value after a commit may be lower than after the previous
commit when rows are iterated in decreasing version order (see the
counterexample). -/
theorem hwm_bounded_below_spec (hwm0 : ℤ) (rows : List UpdateRow) :
    ∀ x ∈ hwmTrace hwm0 rows, hwm0 ≤ x := by
  intro x hx
  unfold hwmTrace at hx
  exact scanl_applyUpdateRow_lower_bound hwm0
    (rows.filter (fun r => selectedForUpdate hwm0 r.connector))
    (fun r hr => (List.mem_filter.mp hr).2)
    hwm0 le_rfl x hx

/-- Witness for C2's amended theorem: in the decreasing-order scan both
intermediate values (5 and 3) are at least the tick-start value 0. -/
theorem hwm_bounded_below_spec_witness :
    (0 : ℤ) ≤ 3 ∧ (0 : ℤ) ≤ 5 :=
  ⟨hwm_bounded_below_spec 0 [committedRow "c5" 5, committedRow "c3" 3] 3
      (by decide),
    hwm_bounded_below_spec 0 [committedRow "c5" 5, committedRow "c3" 3] 5
      (by decide)⟩

/-- When `reconcileConnectorUpdate` returns no error, the post-commit
action was successfully registered (a registration failure always
surfaces as an error). -/
theorem reconcileConnectorUpdate_err_none_registered
    (env : UpdateEnv) (c : GoConnector)
    (h : (reconcileConnectorUpdate env c).err.isNone = true) :
    (reconcileConnectorUpdate env c).postCommitRegistered = true := by
  obtain ⟨g, s, a⟩ := env
  cases a with
  | none => rfl
  | some cerr =>
    exfalso
    cases g with
    | error serr => simp [reconcileConnectorUpdate] at h
    | ok d =>
      by_cases hd : d = c.version
      · simp [reconcileConnectorUpdate, hd] at h
      · cases s <;> simp [reconcileConnectorUpdate, hd] at h

/-- C10, as stated, is false in its final clause: a committed no-op or
committed write indeed leaves `lastVersion` equal to that row's version,
but a later commit of a lower-version row lowers `lastVersion` again, so
the row can be selected on the next tick without its version changing.
Concretely: rows at versions 5 then 3 both commit; after the tick
`lastVersion = 3`, and the version-5 row — unchanged — satisfies the
next scan's predicate again. -/
theorem update_reselect_counterexample :
    hwmFinal 0 [committedRow "c5" 5, committedRow "c3" 3] = 3
    ∧ rowCommitted (committedRow "c5" 5) = true
    ∧ selectedForUpdate (hwmFinal 0 [committedRow "c5" 5, committedRow "c3" 3])
        (committedRow "c5" 5).connector = true := by
  refine ⟨rfl, rfl, ?_⟩
  decide

/-- C10 (amended): `reconcileConnectorUpdate` calls `AddPostCommitAction`
on every row it processes — including rows whose deployment fetch failed
and rows where the versions were already equal so no write occurred — so
whenever registration succeeds the action is queued; after any committed
row transaction the action has run and `lastVersion` equals that row's
version; and while `lastVersion` remains at or above the row's version
the row is not selected by the `updated` scan (though a later commit of
a lower version may make it selectable again without its version
changing). -/
theorem update_postcommit_spec (env : UpdateEnv) (c : GoConnector)
    (r : UpdateRow) (hwm hwm' : ℤ) :
    (env.addPostCommitErr = none →
      (reconcileConnectorUpdate env c).postCommitRegistered = true)
    ∧ (rowCommitted r = true → applyUpdateRow hwm r = r.connector.version)
    ∧ (r.connector.version ≤ hwm' →
        selectedForUpdate hwm' r.connector = false) := by
  refine ⟨fun ha => ?_, fun hc => ?_, fun hle => ?_⟩
  · unfold reconcileConnectorUpdate
    rw [ha]
  · have herr : (reconcileConnectorUpdate r.env r.connector).err.isNone = true := by
      unfold rowCommitted at hc
      have h1 := (Bool.and_eq_true _ _).mp hc
      exact ((Bool.and_eq_true _ _).mp h1.1).2
    unfold applyUpdateRow
    rw [if_pos]
    rw [Bool.and_eq_true]
    exact ⟨hc, reconcileConnectorUpdate_err_none_registered r.env r.connector herr⟩
  · unfold selectedForUpdate
    rw [Bool.and_eq_false_iff]
    left
    simpa using not_lt.mpr hle

/-- Witness for C10's amended theorem at the concrete committing row of
version 5: registration succeeds, the committed transaction sets
`lastVersion` to 5, and at `lastVersion = 5` the row is not selected. -/
theorem update_postcommit_spec_witness :
    (reconcileConnectorUpdate ⟨Except.ok 0, none, none⟩
        (committedRow "c5" 5).connector).postCommitRegistered = true
    ∧ applyUpdateRow 0 (committedRow "c5" 5) = 5
    ∧ selectedForUpdate 5 (committedRow "c5" 5).connector = false := by
  have h := update_postcommit_spec ⟨Except.ok 0, none, none⟩
    (committedRow "c5" 5).connector (committedRow "c5" 5) 0 5
  exact ⟨h.1 rfl, h.2.1 rfl, h.2.2 (by decide)⟩

/-- C9: when the scan itself succeeds, every matching row's transaction
is attempted, in order, whatever errors individual rows produce, and
nothing is appended to the tick's error bag; a service-level scan error
is appended to the bag (and is the only addition), with no rows
attempted in that case. -/
theorem doReconcile_scan_spec (errs : List GoErr) (scanErr : Option GoErr)
    (rows : List ScanRow) :
    (scanErr = none →
      (doReconcile errs scanErr rows).2.map Prod.fst = rows
      ∧ (doReconcile errs scanErr rows).1 = errs)
    ∧ ∀ e, scanErr = some e →
        (doReconcile errs scanErr rows).1 = errs ++ [e]
        ∧ (doReconcile errs scanErr rows).2 = [] := by
  constructor
  · intro h
    subst h
    constructor
    · simp only [doReconcile, ForEach, List.map_map]
      exact List.map_id' rows
    · simp [doReconcile, ForEach]
  · intro e h
    subst h
    constructor
    · simp [doReconcile, ForEach]
    · simp [doReconcile, ForEach]

/-- Witness for C9: a two-row scan whose first row's transaction fails
(plain error, wrapped by the transaction scope) still attempts both rows
and appends nothing to the bag. -/
theorem doReconcile_scan_spec_witness :
    (doReconcile [] none
        [⟨⟨"c1", "o", "g", none, "t", "stable", 1, "assigning", none⟩,
            none, none, some (GoErr.plain "row failure")⟩,
          ⟨⟨"c2", "o", "g", none, "t", "stable", 2, "assigning", none⟩,
            none, none, none⟩]).2.map Prod.fst
      = [⟨⟨"c1", "o", "g", none, "t", "stable", 1, "assigning", none⟩,
            none, none, some (GoErr.plain "row failure")⟩,
          ⟨⟨"c2", "o", "g", none, "t", "stable", 2, "assigning", none⟩,
            none, none, none⟩]
    ∧ (doReconcile [] none
        [⟨⟨"c1", "o", "g", none, "t", "stable", 1, "assigning", none⟩,
            none, none, some (GoErr.plain "row failure")⟩,
          ⟨⟨"c2", "o", "g", none, "t", "stable", 2, "assigning", none⟩,
            none, none, none⟩]).1 = [] :=
  (doReconcile_scan_spec []
      none
      [⟨⟨"c1", "o", "g", none, "t", "stable", 1, "assigning", none⟩,
          none, none, some (GoErr.plain "row failure")⟩,
        ⟨⟨"c2", "o", "g", none, "t", "stable", 2, "assigning", none⟩,
          none, none, none⟩]).1 rfl

end KasFleet
